import Mathlib

/-!
# Water Monitor System: configuration header

A shallow embedding of `arduino/config.h`.  The header consists of object-like
preprocessor definitions only; each one becomes a Lean constant of the type its
replacement text has in C:

* decimal integer literals (`3`, `500`, `9600`) are `int`, embedded as `Int`;
* floating literals (`-7050.0`, `5.0`) are embedded as exact rationals `ℚ`;
* `true` / `false` are `Bool`;
* string literals are `String`.
-/

namespace WaterMonitor

/-! ## HX711 pin settings -/

/-- Source: `#define HX711_DOUT_PIN  3`. -/
def HX711_DOUT_PIN : Int := 3

/-- Source: `#define HX711_SCK_PIN   2`. -/
def HX711_SCK_PIN : Int := 2

/-! ## Bluetooth pin settings -/

/-- Source: `#define BT_RX_PIN  10`. -/
def BT_RX_PIN : Int := 10

/-- Source: `#define BT_TX_PIN  11`. -/
def BT_TX_PIN : Int := 11

/-! ## Calibration settings -/

/-- Source: `#define CALIBRATION_FACTOR  -7050.0`. -/
def CALIBRATION_FACTOR : ℚ := -7050.0

/-! ## Sensor settings -/

/-- Source: `#define WEIGHT_THRESHOLD  5.0`. -/
def WEIGHT_THRESHOLD : ℚ := 5.0

/-- Source: `#define STABLE_READINGS   5`. -/
def STABLE_READINGS : Int := 5

/-- Source: `#define READ_INTERVAL     500`. -/
def READ_INTERVAL : Int := 500

/-! ## Filter settings -/

/-- Source: `#define USE_AVERAGING     true`. -/
def USE_AVERAGING : Bool := true

/-- Source: `#define AVERAGE_SAMPLES   10`. -/
def AVERAGE_SAMPLES : Int := 10

/-! ## Debug settings -/

/-- Source: `#define DEBUG_MODE        false`. -/
def DEBUG_MODE : Bool := false

/-- Source: `#define SERIAL_BAUD_RATE  9600`. -/
def SERIAL_BAUD_RATE : Int := 9600

/-! ## Protocol definition: device to host -/

/-- Source: `#define CMD_WEIGHT        "W:"`. -/
def CMD_WEIGHT : String := "W:"

/-- Source: `#define CMD_DRINK         "D:"`. -/
def CMD_DRINK : String := "D:"

/-- Source: `#define CMD_STATUS        "S:"`. -/
def CMD_STATUS : String := "S:"

/-! ## Protocol definition: host to device -/

/-- Source: `#define CMD_TARE          "T"`. -/
def CMD_TARE : String := "T"

/-- Source: `#define CMD_RESET         "R"`. -/
def CMD_RESET : String := "R"

/-- Source: `#define CMD_CALIBRATE     "C"`. -/
def CMD_CALIBRATE : String := "C"

/-! ## Theorems -/

/-- C1: the compile-time defaults of the header are `CALIBRATION_FACTOR = -7050.0`,
`WEIGHT_THRESHOLD = 5.0`, `STABLE_READINGS = 5`, `READ_INTERVAL = 500`,
`USE_AVERAGING = true`, `AVERAGE_SAMPLES = 10`, `DEBUG_MODE = false` and
`SERIAL_BAUD_RATE = 9600`. -/
theorem config_defaults :
    CALIBRATION_FACTOR = -7050 ∧ WEIGHT_THRESHOLD = 5 ∧ STABLE_READINGS = 5 ∧
      READ_INTERVAL = 500 ∧ USE_AVERAGING = true ∧ AVERAGE_SAMPLES = 10 ∧
      DEBUG_MODE = false ∧ SERIAL_BAUD_RATE = 9600 := by
  refine ⟨?_, ?_, rfl, rfl, rfl, rfl, rfl, rfl⟩
  · unfold CALIBRATION_FACTOR; norm_num
  · unfold WEIGHT_THRESHOLD; norm_num

/-- C2: the protocol strings are `CMD_WEIGHT = "W:"`, `CMD_DRINK = "D:"`,
`CMD_STATUS = "S:"` for device-to-host lines and `CMD_TARE = "T"`, `CMD_RESET = "R"`,
`CMD_CALIBRATE = "C"` for host-to-device commands. -/
theorem protocol_strings :
    CMD_WEIGHT = "W:" ∧ CMD_DRINK = "D:" ∧ CMD_STATUS = "S:" ∧
      CMD_TARE = "T" ∧ CMD_RESET = "R" ∧ CMD_CALIBRATE = "C" :=
  ⟨rfl, rfl, rfl, rfl, rfl, rfl⟩

/-- C3: each inbound command string `CMD_TARE`, `CMD_RESET`, `CMD_CALIBRATE` is exactly one
character long, the three are pairwise distinct, and for every leading byte `b` at most one
of them is selected by comparing `b` with the command strings (whether the comparison is
against the whole one-character string or against its first character). -/
theorem inbound_commands_one_char_distinct :
    (CMD_TARE.length = 1 ∧ CMD_RESET.length = 1 ∧ CMD_CALIBRATE.length = 1) ∧
      (CMD_TARE ≠ CMD_RESET ∧ CMD_TARE ≠ CMD_CALIBRATE ∧ CMD_RESET ≠ CMD_CALIBRATE) ∧
      ∀ b : Char,
        ([CMD_TARE, CMD_RESET, CMD_CALIBRATE].filter
            (fun cmd => decide (cmd = String.singleton b))).length ≤ 1 ∧
        ([CMD_TARE, CMD_RESET, CMD_CALIBRATE].filter
            (fun cmd => decide (cmd.front = b))).length ≤ 1 := by
  refine ⟨⟨rfl, rfl, rfl⟩, ⟨by decide, by decide, by decide⟩, ?_⟩
  intro b
  have hT : (CMD_TARE = String.singleton b) ↔ 'T' = b := by
    simp [CMD_TARE, String.singleton, String.ext_iff]
  have hR : (CMD_RESET = String.singleton b) ↔ 'R' = b := by
    simp [CMD_RESET, String.singleton, String.ext_iff]
  have hC : (CMD_CALIBRATE = String.singleton b) ↔ 'C' = b := by
    simp [CMD_CALIBRATE, String.singleton, String.ext_iff]
  have fT : CMD_TARE.front = 'T' := by decide
  have fR : CMD_RESET.front = 'R' := by decide
  have fC : CMD_CALIBRATE.front = 'C' := by decide
  simp only [List.filter, hT, hR, hC, fT, fR, fC]
  by_cases h1 : 'T' = b
  · subst h1; simp
  · by_cases h2 : 'R' = b
    · subst h2; simp
    · by_cases h3 : 'C' = b
      · subst h3; simp
      · simp [h1, h2, h3]

/-- C4: command matching is case-sensitive and rejects unknown bytes.  For a byte `b` among
`X`, `t`, `r`, `c` and any line whose leading byte is `b`, every one of `CMD_TARE`,
`CMD_RESET`, `CMD_CALIBRATE` differs from `b` (as a one-character string and in its first
character) and is not a prefix of the line, so comparing `b` with the command strings
selects no command. -/
theorem unknown_bytes_select_no_command (b : Char) (hb : b ∈ ['X', 't', 'r', 'c'])
    (line : String) (hline : line.data.head? = some b) :
    (∀ cmd ∈ [CMD_TARE, CMD_RESET, CMD_CALIBRATE],
        cmd ≠ String.singleton b ∧ cmd.front ≠ b ∧ ¬ cmd.data <+: line.data) ∧
      [CMD_TARE, CMD_RESET, CMD_CALIBRATE].filter
          (fun cmd => decide (cmd = String.singleton b)) = [] ∧
      [CMD_TARE, CMD_RESET, CMD_CALIBRATE].filter
          (fun cmd => decide (cmd.front = b)) = [] := by
  have key : ∀ cmd ∈ [CMD_TARE, CMD_RESET, CMD_CALIBRATE],
      cmd ≠ String.singleton b ∧ cmd.front ≠ b ∧ ¬ cmd.data <+: line.data := by
    obtain ⟨l⟩ := line
    cases l with
    | nil => simp at hline
    | cons a t =>
      simp only [List.head?_cons, Option.some.injEq] at hline
      subst hline
      intro cmd hc
      simp only [List.mem_cons, List.mem_singleton, List.not_mem_nil, or_false] at hb hc
      rcases hc with rfl | rfl | rfl <;> rcases hb with rfl | rfl | rfl | rfl <;>
        refine ⟨by decide, by decide, ?_⟩ <;>
        simp only [CMD_TARE, CMD_RESET, CMD_CALIBRATE, List.cons_prefix_cons, not_and] <;>
        intro h <;> exact absurd h (by decide)
  refine ⟨key, ?_, ?_⟩
  · simp only [List.filter_eq_nil_iff, decide_eq_true_eq]
    intro cmd hc
    exact (key cmd hc).1
  · simp only [List.filter_eq_nil_iff, decide_eq_true_eq]
    intro cmd hc
    exact (key cmd hc).2.1

/-- Witness for C4 at the byte `X` leading the line `Xtc`. -/
theorem unknown_bytes_select_no_command_witness :
    'X' ∈ ['X', 't', 'r', 'c'] ∧ "Xtc".data.head? = some 'X' ∧
      ((∀ cmd ∈ [CMD_TARE, CMD_RESET, CMD_CALIBRATE],
          cmd ≠ String.singleton 'X' ∧ cmd.front ≠ 'X' ∧ ¬ cmd.data <+: "Xtc".data) ∧
        [CMD_TARE, CMD_RESET, CMD_CALIBRATE].filter
            (fun cmd => decide (cmd = String.singleton 'X')) = [] ∧
        [CMD_TARE, CMD_RESET, CMD_CALIBRATE].filter
            (fun cmd => decide (cmd.front = 'X')) = []) :=
  ⟨by decide, by decide, unknown_bytes_select_no_command 'X' (by decide) "Xtc" (by decide)⟩

/-- C5: the compiled default `CALIBRATION_FACTOR` is non-zero, so for every raw reading `r`
and every zero offset `z` the quotient `(r - z) / CALIBRATION_FACTOR` is a genuine
division: multiplying it back by `CALIBRATION_FACTOR` recovers `r - z`. -/
theorem calibration_factor_ne_zero :
    CALIBRATION_FACTOR ≠ 0 ∧
      ∀ (r : ℤ) (z : ℚ),
        ((r : ℚ) - z) / CALIBRATION_FACTOR * CALIBRATION_FACTOR = (r : ℚ) - z := by
  have h : CALIBRATION_FACTOR ≠ 0 := by unfold CALIBRATION_FACTOR; norm_num
  exact ⟨h, fun r z => div_mul_cancel₀ _ h⟩

/-- C6: with `CALIBRATION_FACTOR` as scale factor, for every raw reading `r` and tare
offset `z` the weight `(r - z) / CALIBRATION_FACTOR` is zero exactly when `r = z`, strictly
negative exactly when `r > z` and strictly positive exactly when `r < z`, following the
negative sign of `CALIBRATION_FACTOR`.  After a tare at raw 100, raw 100 weighs 0 and raw
150 weighs exactly `-1/141`, which is within `0.0001` of `-0.0071`. -/
theorem weight_sign_follows_calibration :
    CALIBRATION_FACTOR < 0 ∧
      (∀ (r : ℤ) (z : ℚ),
        (((r : ℚ) - z) / CALIBRATION_FACTOR = 0 ↔ (r : ℚ) = z) ∧
        (((r : ℚ) - z) / CALIBRATION_FACTOR < 0 ↔ z < (r : ℚ)) ∧
        (0 < ((r : ℚ) - z) / CALIBRATION_FACTOR ↔ (r : ℚ) < z)) ∧
      (((100 : ℤ) : ℚ) - 100) / CALIBRATION_FACTOR = 0 ∧
      (((150 : ℤ) : ℚ) - 100) / CALIBRATION_FACTOR = -1 / 141 ∧
      |(((150 : ℤ) : ℚ) - 100) / CALIBRATION_FACTOR - (-0.0071)| < 0.0001 := by
  have hneg : CALIBRATION_FACTOR < 0 := by unfold CALIBRATION_FACTOR; norm_num
  refine ⟨hneg, ?_, ?_, ?_, ?_⟩
  · intro r z
    refine ⟨?_, ?_, ?_⟩
    · rw [div_eq_zero_iff, sub_eq_zero]
      constructor
      · rintro (h | h)
        · exact h
        · exact absurd h hneg.ne
      · exact fun h => Or.inl h
    · rw [div_neg_iff]
      constructor
      · rintro (⟨h, _⟩ | ⟨_, h⟩)
        · linarith
        · linarith
      · exact fun h => Or.inl ⟨by linarith, hneg⟩
    · rw [div_pos_iff]
      constructor
      · rintro (⟨_, h⟩ | ⟨h, _⟩)
        · linarith
        · linarith
      · exact fun h => Or.inr ⟨by linarith, hneg⟩
  · unfold CALIBRATION_FACTOR; norm_num
  · unfold CALIBRATION_FACTOR; norm_num
  · unfold CALIBRATION_FACTOR; norm_num [abs_lt]

/-- C7: each outbound prefix `CMD_WEIGHT`, `CMD_DRINK`, `CMD_STATUS` is exactly two characters,
an upper-case letter followed by a colon; the first characters of the six protocol strings
are pairwise distinct (so the outbound first characters differ from each other and from
every inbound command character); no outbound prefix is a prefix of a different outbound
prefix; and two protocol strings with the same first byte are the same message kind. -/
theorem outbound_prefixes_unambiguous :
    (∀ p ∈ [CMD_WEIGHT, CMD_DRINK, CMD_STATUS],
        p.length = 2 ∧ ∃ u : Char, u.isUpper = true ∧ p.data = [u, ':']) ∧
      ([CMD_WEIGHT, CMD_DRINK, CMD_STATUS].map String.front).Nodup ∧
      (∀ p ∈ [CMD_WEIGHT, CMD_DRINK, CMD_STATUS], ∀ c ∈ [CMD_TARE, CMD_RESET, CMD_CALIBRATE],
        p.front ≠ c.front ∧ c ≠ String.singleton p.front) ∧
      (∀ p ∈ [CMD_WEIGHT, CMD_DRINK, CMD_STATUS], ∀ q ∈ [CMD_WEIGHT, CMD_DRINK, CMD_STATUS],
        p.data <+: q.data → p = q) ∧
      ([CMD_WEIGHT, CMD_DRINK, CMD_STATUS, CMD_TARE, CMD_RESET, CMD_CALIBRATE].map
        String.front).Nodup ∧
      (∀ s ∈ [CMD_WEIGHT, CMD_DRINK, CMD_STATUS, CMD_TARE, CMD_RESET, CMD_CALIBRATE],
        ∀ t ∈ [CMD_WEIGHT, CMD_DRINK, CMD_STATUS, CMD_TARE, CMD_RESET, CMD_CALIBRATE],
          s.front = t.front → s = t) := by
  refine ⟨?_, by decide, by decide, by decide, by decide, by decide⟩
  intro p hp
  simp only [List.mem_cons, List.mem_singleton, List.not_mem_nil, or_false] at hp
  rcases hp with rfl | rfl | rfl
  · exact ⟨rfl, 'W', by decide, rfl⟩
  · exact ⟨rfl, 'D', by decide, rfl⟩
  · exact ⟨rfl, 'S', by decide, rfl⟩

/-- Witness for C7 at the outbound prefix `CMD_WEIGHT`. -/
theorem outbound_prefixes_unambiguous_witness :
    CMD_WEIGHT ∈ [CMD_WEIGHT, CMD_DRINK, CMD_STATUS] ∧
      CMD_WEIGHT.length = 2 ∧ ∃ u : Char, u.isUpper = true ∧ CMD_WEIGHT.data = [u, ':'] :=
  ⟨by decide, outbound_prefixes_unambiguous.1 CMD_WEIGHT (by decide)⟩

/-- C8: the four pin assignments `HX711_DOUT_PIN`, `HX711_SCK_PIN`, `BT_RX_PIN`, `BT_TX_PIN`
are pairwise distinct and none of them is pin 0 or pin 1, the hardware serial pins. -/
theorem pins_distinct_and_off_hardware_serial :
    (HX711_DOUT_PIN ≠ HX711_SCK_PIN ∧ HX711_DOUT_PIN ≠ BT_RX_PIN ∧
        HX711_DOUT_PIN ≠ BT_TX_PIN ∧ HX711_SCK_PIN ≠ BT_RX_PIN ∧
        HX711_SCK_PIN ≠ BT_TX_PIN ∧ BT_RX_PIN ≠ BT_TX_PIN) ∧
      [HX711_DOUT_PIN, HX711_SCK_PIN, BT_RX_PIN, BT_TX_PIN].Nodup ∧
      (HX711_DOUT_PIN ≠ 0 ∧ HX711_DOUT_PIN ≠ 1) ∧ (HX711_SCK_PIN ≠ 0 ∧ HX711_SCK_PIN ≠ 1) ∧
      (BT_RX_PIN ≠ 0 ∧ BT_RX_PIN ≠ 1) ∧ (BT_TX_PIN ≠ 0 ∧ BT_TX_PIN ≠ 1) := by
  decide

/-- C9: the integer tunables `STABLE_READINGS`, `READ_INTERVAL`, `AVERAGE_SAMPLES`,
`SERIAL_BAUD_RATE` and the derived durations `STABLE_READINGS * READ_INTERVAL` and
`AVERAGE_SAMPLES * READ_INTERVAL` all lie in `1..32767`; the two products are unchanged by
reduction to a 16-bit two's-complement `int`; and `WEIGHT_THRESHOLD` is strictly
positive. -/
theorem tunables_fit_int16 :
    (1 ≤ STABLE_READINGS ∧ STABLE_READINGS ≤ 32767) ∧
      (1 ≤ READ_INTERVAL ∧ READ_INTERVAL ≤ 32767) ∧
      (1 ≤ AVERAGE_SAMPLES ∧ AVERAGE_SAMPLES ≤ 32767) ∧
      (1 ≤ SERIAL_BAUD_RATE ∧ SERIAL_BAUD_RATE ≤ 32767) ∧
      (1 ≤ STABLE_READINGS * READ_INTERVAL ∧ STABLE_READINGS * READ_INTERVAL ≤ 32767) ∧
      (1 ≤ AVERAGE_SAMPLES * READ_INTERVAL ∧ AVERAGE_SAMPLES * READ_INTERVAL ≤ 32767) ∧
      (STABLE_READINGS * READ_INTERVAL + 2 ^ 15) % 2 ^ 16 - 2 ^ 15 =
        STABLE_READINGS * READ_INTERVAL ∧
      (AVERAGE_SAMPLES * READ_INTERVAL + 2 ^ 15) % 2 ^ 16 - 2 ^ 15 =
        AVERAGE_SAMPLES * READ_INTERVAL ∧
      0 < WEIGHT_THRESHOLD := by
  refine ⟨by decide, by decide, by decide, by decide, by decide, by decide, by decide,
    by decide, ?_⟩
  unfold WEIGHT_THRESHOLD; norm_num

end WaterMonitor
